import Mathlib

/-
  Verification of the flashcard-viewer core (Model / Event / Reducer /
  Scheduler architecture) of the 100py repository.

  The Python sources are shallowly embedded below; each definition cites
  the file and function it translates.
-/

namespace Milo

/-- `WordPair` from raylib_main.py (frozen dataclass with fields fr, en). -/
structure WordPair where
  fr : String
  en : String
  deriving DecidableEq, Repr

instance : Inhabited WordPair := ⟨⟨"", ""⟩⟩

/-- `Model` from raylib_main.py: current pair plus which face is showing. -/
structure Model where
  current : WordPair
  showing_back : Bool := false
  deriving DecidableEq, Repr

/-- `flip` from raylib_main.py lines 73-76 (identical in trash/ash2.py
lines 84-88): if showing_back, return the model unchanged, otherwise
return a copy with showing_back set to true. -/
def flip (model : Model) : Model :=
  if model.showing_back then model
  else { model with showing_back := true }

/-- `next_card` from raylib_main.py lines 80-81 (identical in
trash/ash2.py lines 92-94): replace current with the chosen pair and
reset showing_back to false, unconditionally. -/
def next_card (model : Model) (chosen : WordPair) : Model :=
  { model with current := chosen, showing_back := false }

/-- `Event` enum from raylib_main.py lines 108-110. -/
inductive Event where
  | NEXT
  | AUTO_FLIP
  deriving DecidableEq, Repr

/-- `random.choice(word_pairs)`: the randomness is an external source; a
draw outcome is an index into the store, reduced modulo its length.  The
default is never reached on a non-empty store. -/
def randomChoice (pairs : List WordPair) (draw : Nat) : WordPair :=
  pairs.getD (draw % pairs.length) default

/-- The mutable loop state of `main` in raylib_main.py that the reducer
body touches: the model, the `time_since_next` clock, and (for the
embedding of `random.choice`) how many draws have been consumed. -/
structure ReducerState where
  model : Model
  time_since_next : ℚ
  rng_calls : Nat
  deriving DecidableEq, Repr

/-- One iteration of the reducer body in raylib_main.py lines 244-251:
NEXT draws a pair, applies `next_card` and resets the clock; AUTO_FLIP
applies `flip`.  `choose k` is the outcome of the (k+1)-th
`random.choice` call. -/
def reduceStep (choose : Nat → WordPair) (s : ReducerState) : Event → ReducerState
  | Event.NEXT =>
      { model := next_card s.model (choose s.rng_calls)
        time_since_next := 0
        rng_calls := s.rng_calls + 1 }
  | Event.AUTO_FLIP =>
      { s with model := flip s.model }

/-- The `while events:` drain of raylib_main.py lines 244-251: pop the
deque from the left (FIFO), run the reducer body, and record the model
snapshot visible to the draw step after each event. -/
def drainEvents (choose : Nat → WordPair) (s : ReducerState) : List Event → List Model
  | [] => []
  | ev :: rest =>
      let s2 := reduceStep choose s ev
      s2.model :: drainEvents choose s2 rest

/-- Final reducer state after draining the whole queue. -/
def drainRun (choose : Nat → WordPair) (s : ReducerState) : List Event → ReducerState
  | [] => s
  | ev :: rest => drainRun choose (reduceStep choose s ev) rest

/-- Modelled from the spec: the pure transition functions folded over an
event sequence — `next_card` with the chosen pair for NEXT, `flip` for
AUTO_FLIP — threading only the model and the count of consumed draws. -/
def specTransition (choose : Nat → WordPair) : Model × Nat → Event → Model × Nat
  | (m, k), Event.NEXT => (next_card m (choose k), k + 1)
  | (m, k), Event.AUTO_FLIP => (flip m, k)

/-- An asyncio task created by `_start_flip_timer` in trash/ash2.py:
after `delay` seconds of sleep it enqueues one AUTO_FLIP, unless it was
cancelled first.  `done` records that the task already ran to completion. -/
structure FlipTask where
  delay : ℚ
  cancelled : Bool
  done : Bool
  deriving DecidableEq, Repr

/-- The scheduler state of trash/ash2.py: the tasks created so far, in
creation order.  `self.flip_task` always references the most recently
created one, i.e. the last element. -/
structure TimerState where
  tasks : List FlipTask
  deriving DecidableEq, Repr

/-- `_cancel_flip_timer` from trash/ash2.py lines 344-347: cancel the
task referenced by `self.flip_task` (the most recent one) if it exists
and is not done. -/
def cancelLast : List FlipTask → List FlipTask
  | [] => []
  | t :: rest =>
    match rest with
    | [] => if t.done then [t] else [{ t with cancelled := true }]
    | r :: rs => t :: cancelLast (r :: rs)

def cancelFlipTimer (s : TimerState) : TimerState :=
  { tasks := cancelLast s.tasks }

/-- `_start_flip_timer` from trash/ash2.py lines 349-363: cancel the
pending timer, then create a fresh task that will sleep for `delay`
seconds and enqueue AUTO_FLIP on expiry. -/
def startFlipTimer (s : TimerState) (delay : ℚ) : TimerState :=
  let s2 := cancelFlipTimer s
  { tasks := s2.tasks ++ [{ delay := delay, cancelled := false, done := false }] }

/-- The AUTO_FLIP events the pending timers will still enqueue, paired
with the delay at which each fires: one per task that is neither
cancelled nor already completed (a cancelled `_later` body never reaches
its `put`). -/
def firedFlips (s : TimerState) : List (Event × ℚ) :=
  (s.tasks.filter (fun t => !t.cancelled && !t.done)).map
    (fun t => (Event.AUTO_FLIP, t.delay))

/-- At most the most recently created task is live: every earlier task
was cancelled or has completed. -/
def onlyLastLive (s : TimerState) : Prop :=
  ∀ t ∈ s.tasks.dropLast, t.cancelled = true ∨ t.done = true

/-- A data row as exposed by `csv.DictReader` in raylib_main.py: the
values under the header columns "French" and "English", absent when the
row has no such column. -/
structure CsvRow where
  french : Option String
  english : Option String
  deriving DecidableEq, Repr

/-- The characters `str.strip()` removes (Python whitespace). -/
def isPySpace (c : Char) : Bool :=
  c = ' ' || c = '\t' || c = '\n' || c = '\r' || c = '\x0b' || c = '\x0c'

/-- Python `s.strip()`: drop leading and trailing whitespace. -/
def pyStrip (s : String) : String :=
  String.mk (((s.data.dropWhile isPySpace).reverse.dropWhile isPySpace).reverse)

/-- Python `(x or "")` on an optional string: `""` when the value is
missing or falsy (empty), the value itself otherwise. -/
def pyOrEmpty : Option String → String
  | none => ""
  | some v => if v = "" then "" else v

/-- The trimmed value of the "French" cell: `(row.get("French") or "").strip()`. -/
def trimmedFr (r : CsvRow) : String := pyStrip (pyOrEmpty r.french)

/-- The trimmed value of the "English" cell: `(row.get("English") or "").strip()`. -/
def trimmedEn (r : CsvRow) : String := pyStrip (pyOrEmpty r.english)

/-- The body of the row loop in raylib_main.py lines 94-98: bind the
trimmed cells, append a WordPair when both are non-empty (`if fr and
en`), keep the accumulated list unchanged otherwise. -/
def loadStep (acc : List WordPair) (row : CsvRow) : List WordPair :=
  let fr := trimmedFr row
  let en := trimmedEn row
  if fr ≠ "" ∧ en ≠ "" then acc ++ [⟨fr, en⟩] else acc

/-- `load_word_pairs` from raylib_main.py lines 90-99: scan the rows in
file order, appending a WordPair of the trimmed cell values whenever
both are non-empty, silently skipping the others. -/
def load_word_pairs (rows : List CsvRow) : List WordPair :=
  rows.foldl loadStep []

/-- `RandomSelection.next` from trash/main_v3.py lines 92-96: on an
empty corpus return `current`; otherwise draw once, and if the draw
equals `current`, draw exactly once more and return that second draw
whatever it is.  The two draw outcomes are indices from the external
random source, reduced modulo the corpus length as in `randomChoice`. -/
def RandomSelection.next (current : WordPair) (corpus : List WordPair)
    (draw1 draw2 : Nat) : WordPair :=
  if corpus.isEmpty then current
  else
    let nxt := randomChoice corpus draw1
    if nxt ≠ current then nxt else randomChoice corpus draw2

/-- One `ImageDraw.text` call, by content: position, text, anchor, the
font handle and the fill color. -/
structure DrawOp where
  pos : Nat × Nat
  text : String
  anchor : String
  font : Nat
  fill : String
  deriving DecidableEq, Repr

/-- A PIL image by content: the decoded base imagery it started from and
the text operations drawn onto it.  `Image.copy()` yields a new image
with this same content. -/
structure PImage where
  baseId : Nat
  ops : List DrawOp
  deriving DecidableEq, Repr

/-- `ThemeSpec` from trash/main_v3.py lines 28-56. -/
structure ThemeSpec where
  front_path : String
  back_path : String
  title_font_path : String
  word_font_path : String
  title_font_size : Nat := 40
  word_font_size : Nat := 60
  canvas_size : Nat × Nat := (800, 526)
  title_pos : Nat × Nat := (400, 175)
  word_pos : Nat × Nat := (400, 350)
  title_color : String := "red"
  word_color : String := "green"
  deriving DecidableEq, Repr

/-- The tuple type of `ThemeSpec.key()`. -/
abbrev ThemeKey :=
  String × String × String × String × Nat × Nat × (Nat × Nat) × (Nat × Nat) ×
    (Nat × Nat) × String × String

/-- `ThemeSpec.key` from trash/main_v3.py lines 42-56: the hashable
tuple of all theme fields. -/
def ThemeSpec.key (t : ThemeSpec) : ThemeKey :=
  (t.front_path, t.back_path, t.title_font_path, t.word_font_path,
   t.title_font_size, t.word_font_size, t.canvas_size, t.title_pos,
   t.word_pos, t.title_color, t.word_color)

/-- `Theme` from trash/main_v3.py lines 59-69: spec plus loaded base
imagery and font handles. -/
structure Theme where
  spec : ThemeSpec
  base_front : PImage
  base_back : PImage
  title_font : Nat
  word_font : Nat
  deriving DecidableEq, Repr

/-- `Theme.key` property from trash/main_v3.py lines 67-69. -/
def Theme.key (t : Theme) : ThemeKey := t.spec.key

/-- `CardImages` from trash/main_v3.py lines 72-75. -/
structure CardImages where
  front : PImage
  back : PImage
  deriving DecidableEq, Repr

/-- The cache key `(words.fr, words.en, self.theme.key)`. -/
abbrev CacheKey := String × String × ThemeKey

instance : DecidableEq ((Nat × Nat) × (Nat × Nat) × (Nat × Nat) × String × String) :=
  instDecidableEqProd

instance : DecidableEq (Nat × Nat × (Nat × Nat) × (Nat × Nat) × (Nat × Nat) × String × String) :=
  instDecidableEqProd

instance : DecidableEq ThemeKey := instDecidableEqProd

instance : DecidableEq CacheKey := instDecidableEqProd

/-- `dict.get` over the cache contents (newest binding wins, as after
`self._cache[key] = imgs`). -/
def cacheLookup : List (CacheKey × CardImages) → CacheKey → Option CardImages
  | [], _ => none
  | (k, v) :: rest, key => if k = key then some v else cacheLookup rest key

/-- The cache-miss block of `CardRenderer.render` in trash/main_v3.py
lines 122-157: copy both base images, draw the title and the word on
each, and package them.  This is exactly what every call computes when
the cache is disabled. -/
def renderUncached (theme : Theme) (words : WordPair) : CardImages :=
  let f := { theme.base_front with
    ops := theme.base_front.ops ++
      [⟨theme.spec.title_pos, "French", "mm", theme.title_font,
          theme.spec.title_color⟩,
       ⟨theme.spec.word_pos, words.fr, "mm", theme.word_font,
          theme.spec.word_color⟩] }
  let b := { theme.base_back with
    ops := theme.base_back.ops ++
      [⟨theme.spec.title_pos, "English", "mm", theme.title_font,
          theme.spec.title_color⟩,
       ⟨theme.spec.word_pos, words.en, "mm", theme.word_font,
          theme.spec.word_color⟩] }
  ⟨f, b⟩

/-- `CardRenderer` from trash/main_v3.py lines 111-114: a theme and the
memo cache. -/
structure CardRenderer where
  theme : Theme
  cache : List (CacheKey × CardImages) := []

/-- `CardRenderer.render` from trash/main_v3.py lines 116-159: look the
key up; on a hit return the stored artifacts, on a miss compute, store
under the key, and return. -/
def CardRenderer.render (r : CardRenderer) (words : WordPair) :
    CardImages × CardRenderer :=
  let key : CacheKey := (words.fr, words.en, r.theme.key)
  match cacheLookup r.cache key with
  | some imgs => (imgs, r)
  | none =>
      let imgs := renderUncached r.theme words
      (imgs, { r with cache := (key, imgs) :: r.cache })

/-- Every cached entry reachable under the renderer's own theme key
holds exactly what the uncached computation produces for that pair. -/
def cacheWF (r : CardRenderer) : Prop :=
  ∀ fr en imgs,
    cacheLookup r.cache (fr, en, r.theme.key) = some imgs →
      imgs = renderUncached r.theme ⟨fr, en⟩

/-- One `ImageDraw.text` call in the Toga variants; positions there are
computed by float division, so they are rationals. -/
structure GOp where
  pos : ℚ × ℚ
  text : String
  anchor : String
  font : Nat
  fill : String
  deriving DecidableEq, Repr

/-- A PIL image object's content: decoded base imagery plus drawn ops. -/
structure GImage where
  baseId : Nat
  ops : List GOp
  deriving DecidableEq, Repr

/-- The heap of live PIL image objects; a Nat reference indexes into it. -/
structure ImgHeap where
  cells : List GImage
  deriving DecidableEq, Repr

/-- Dereference an image; the default is never reached for a live ref. -/
def readImg (h : ImgHeap) (r : Nat) : GImage :=
  h.cells.getD r ⟨0, []⟩

/-- Allocate a fresh image object with the given content. -/
def allocImg (h : ImgHeap) (img : GImage) : ImgHeap × Nat :=
  ({ cells := h.cells ++ [img] }, h.cells.length)

/-- `Image.copy()`: allocate a new object with the same content. -/
def copyImg (h : ImgHeap) (r : Nat) : ImgHeap × Nat :=
  allocImg h (readImg h r)

/-- `ImageDraw.Draw(img).text(...)`: mutate the object in place by
appending the drawn op to its content. -/
def drawText (h : ImgHeap) (r : Nat) (op : GOp) : ImgHeap :=
  { cells := h.cells.set r
      { readImg h r with ops := (readImg h r).ops ++ [op] } }

/-- The theme data `render_card` in trash.py consumes: the two shared
base-image objects, both font handles, and the layout/color fields of
`Theme` (trash.py lines 35-45). -/
structure ThemeRefs where
  base_front : Nat
  base_back : Nat
  title_font : Nat
  word_font : Nat
  title_pos : ℚ × ℚ := (400, 175)
  word_pos : ℚ × ℚ := (400, 350)
  title_color : String := "red"
  word_color : String := "green"
  deriving DecidableEq, Repr

/-- `render_card` from trash.py lines 79-116: copy both shared base
images, draw title and word on the front copy, draw title and word on
the back copy, and return the two fresh objects. -/
def render_card (h : ImgHeap) (theme : ThemeRefs) (words : WordPair) :
    ImgHeap × Nat × Nat :=
  let p1 := copyImg h theme.base_front
  let p2 := copyImg p1.1 theme.base_back
  let h3 := drawText p2.1 p1.2
    ⟨theme.title_pos, "French", "mm", theme.title_font, theme.title_color⟩
  let h4 := drawText h3 p1.2
    ⟨theme.word_pos, words.fr, "mm", theme.word_font, theme.word_color⟩
  let h5 := drawText h4 p2.2
    ⟨theme.title_pos, "English", "mm", theme.title_font, theme.title_color⟩
  let h6 := drawText h5 p2.2
    ⟨theme.word_pos, words.en, "mm", theme.word_font, theme.word_color⟩
  (h6, p1.2, p2.2)

/-- `CardGraphic` from trash/org_main.py lines 42-45: references to a
front and a back image object. -/
structure CardGraphic where
  front : Nat
  back : Nat
  deriving DecidableEq, Repr

/-- `CardGraphic()` construction: the default factories copy the
module-level `card_front` and `card_back` templates once. -/
def mkCardGraphic (h : ImgHeap) (card_front card_back : Nat) :
    ImgHeap × CardGraphic :=
  let p1 := copyImg h card_front
  let p2 := copyImg p1.1 card_back
  (p2.1, ⟨p1.2, p2.2⟩)

/-- `create_card` from trash/org_main.py lines 48-91: draw the titles
and both words of the pair directly onto the image objects of the
CardGraphic it is given — no copy happens here — and hand those same
objects to the views.  `cfront_size = (800, 526)`, positions are
`(800/2, 526/3)` and `(800/2, 526/1.5)`. -/
def create_card (h : ImgHeap) (title_font word_font : Nat)
    (graphic : CardGraphic) (words : WordPair) : ImgHeap × Nat × Nat :=
  let h1 := drawText h graphic.front
    ⟨(400, (526 : ℚ) / 3), "French", "mm", title_font, "red"⟩
  let h2 := drawText h1 graphic.front
    ⟨(400, (526 : ℚ) / 1.5), words.fr, "mm", word_font, "green"⟩
  let h3 := drawText h2 graphic.back
    ⟨(400, (526 : ℚ) / 3), "English", "mm", title_font, "red"⟩
  let h4 := drawText h3 graphic.back
    ⟨(400, (526 : ℚ) / 1.5), words.en, "mm", word_font, "green"⟩
  (h4, graphic.front, graphic.back)

/-- The two ops `render_card` draws on the front copy. -/
def renderCardFrontOps (theme : ThemeRefs) (words : WordPair) : List GOp :=
  [⟨theme.title_pos, "French", "mm", theme.title_font, theme.title_color⟩,
   ⟨theme.word_pos, words.fr, "mm", theme.word_font, theme.word_color⟩]

/-- The two ops `render_card` draws on the back copy. -/
def renderCardBackOps (theme : ThemeRefs) (words : WordPair) : List GOp :=
  [⟨theme.title_pos, "English", "mm", theme.title_font, theme.title_color⟩,
   ⟨theme.word_pos, words.en, "mm", theme.word_font, theme.word_color⟩]

/-- The two ops `create_card` draws on the graphic's front object. -/
def createCardFrontOps (title_font word_font : Nat) (words : WordPair) :
    List GOp :=
  [⟨(400, (526 : ℚ) / 3), "French", "mm", title_font, "red"⟩,
   ⟨(400, (526 : ℚ) / 1.5), words.fr, "mm", word_font, "green"⟩]

/-- The `Event` enum of trash/main_v3.py lines 167-169 (values "flip"
and "next"); the scheduler publishes FLIP on every interval expiry. -/
inductive EventV3 where
  | FLIP
  | NEXT
  deriving DecidableEq, Repr

/-- `FlipPolicy` from trash/main_v3.py lines 99-103. -/
structure FlipPolicy where
  interval_sec : ℚ := 5
  auto_flip : Bool := true
  deriving DecidableEq, Repr

/-- The mutable model state of `Controller` in trash/main_v3.py lines
275-297: the current pair and which face is showing (the corpus,
renderer, viewport and policies it also holds are collaborators the
intents below act through). -/
structure Controller where
  current : WordPair
  showing_back : Bool
  deriving DecidableEq, Repr

/-- `Controller.flip` from trash/main_v3.py lines 300-302: toggle
`showing_back` (then update the viewport side — an edge effect). -/
def Controller.flip (c : Controller) : Controller :=
  { c with showing_back := !c.showing_back }

/-- `Controller.next` from trash/main_v3.py lines 304-308: replace
`current` with the selection policy's pick (resolved at the edge and
passed in) and reset to the front face. -/
def Controller.next (c : Controller) (chosen : WordPair) : Controller :=
  { c with current := chosen, showing_back := false }

/-- `Controller._on_event` from trash/main_v3.py lines 316-319: on FLIP,
call `flip()` only when the policy has auto_flip enabled; on NEXT call
`next()`. -/
def Controller.onEvent (policy : FlipPolicy) (chosen : WordPair)
    (c : Controller) : EventV3 → Controller
  | EventV3.FLIP => if policy.auto_flip then c.flip else c
  | EventV3.NEXT => c.next chosen

end Milo

namespace Milo

theorem reduceStep_model (choose : Nat → WordPair) (s : ReducerState) (ev : Event) :
    ((reduceStep choose s ev).model, (reduceStep choose s ev).rng_calls) =
      specTransition choose (s.model, s.rng_calls) ev := by
  cases ev <;> rfl

theorem scanl_spec_head_fst (choose : Nat → WordPair) (b : Model × Nat)
    (l : List Event) :
    (List.scanl (specTransition choose) b l).map Prod.fst =
      b.1 :: ((List.scanl (specTransition choose) b l).tail.map Prod.fst) := by
  cases l with
  | nil => simp
  | cons e rest => simp [List.scanl_cons]

/-- C1: the reducer drain of raylib_main.py processes the queued events
front-first, one at a time, and both the sequence of model snapshots it
exposes and its final model are exactly the left fold of the pure
transition functions (`next_card` on NEXT with the drawn pair, `flip` on
AUTO_FLIP) over the event sequence, in arrival order. -/
theorem drain_is_fold (choose : Nat → WordPair) (s : ReducerState)
    (events : List Event) :
    drainEvents choose s events =
      (List.scanl (specTransition choose) (s.model, s.rng_calls) events).tail.map
        Prod.fst ∧
    ((drainRun choose s events).model, (drainRun choose s events).rng_calls) =
      events.foldl (specTransition choose) (s.model, s.rng_calls) := by
  induction events generalizing s with
  | nil => simp [drainEvents, drainRun]
  | cons ev rest ih =>
    have hstep := reduceStep_model choose s ev
    constructor
    · show (reduceStep choose s ev).model :: drainEvents choose (reduceStep choose s ev) rest = _
      rw [List.scanl_cons]
      simp only [List.singleton_append, List.tail_cons]
      rw [(ih (reduceStep choose s ev)).1, ← hstep,
        scanl_spec_head_fst choose ((reduceStep choose s ev).model,
          (reduceStep choose s ev).rng_calls) rest]
    · show ((drainRun choose (reduceStep choose s ev) rest).model,
          (drainRun choose (reduceStep choose s ev) rest).rng_calls) = _
      rw [List.foldl_cons, ← hstep]
      exact (ih (reduceStep choose s ev)).2

theorem auto_flip_noop (choose : Nat → WordPair) (s : ReducerState)
    (h : s.model.showing_back = true) :
    reduceStep choose s Event.AUTO_FLIP = s := by
  have hm : flip s.model = s.model := by
    unfold flip
    rw [h]
    simp
  show { s with model := flip s.model } = s
  rw [hm]

/-- C4 counterexample: in trash/main_v3.py, `Controller.flip` toggles,
so processing the scheduler's auto-flip (FLIP) event while the model
already shows its back does not leave it unchanged — it returns the
card to the front face. -/
theorem controller_auto_flip_not_noop :
    Controller.onEvent { interval_sec := 5, auto_flip := true }
        ⟨"chien", "dog"⟩ ⟨⟨"chat", "cat"⟩, true⟩ EventV3.FLIP ≠
      ⟨⟨"chat", "cat"⟩, true⟩ ∧
    (Controller.onEvent { interval_sec := 5, auto_flip := true }
        ⟨"chien", "dog"⟩ ⟨⟨"chat", "cat"⟩, true⟩ EventV3.FLIP).showing_back =
      false := by
  decide

/-- C4 (amended): in the raylib_main.py reducer, an AUTO_FLIP arriving
while the model already shows its back leaves the whole reducer state
(in particular the Model) unchanged — dropped as a silent no-op, never
an error; but in trash/main_v3.py, `Controller.flip` toggles
showing_back, so an auto-flip (FLIP) event processed there while
already showing the back returns the card to the front face. -/
theorem auto_flip_noop_variants (choose : Nat → WordPair) (s : ReducerState)
    (policy : FlipPolicy) (chosen : WordPair) (c : Controller)
    (hs : s.model.showing_back = true) (hp : policy.auto_flip = true)
    (hc : c.showing_back = true) :
    reduceStep choose s Event.AUTO_FLIP = s ∧
    Controller.onEvent policy chosen c EventV3.FLIP =
      { c with showing_back := false } := by
  refine ⟨auto_flip_noop choose s hs, ?_⟩
  show (if policy.auto_flip then c.flip else c) = _
  rw [hp]
  simp [Controller.flip, hc]

/-- Witness for the amended C4 at concrete states showing the back. -/
theorem auto_flip_noop_variants_witness :
    reduceStep (fun _ => ⟨"chien", "dog"⟩)
        ⟨⟨⟨"chat", "cat"⟩, true⟩, 2, 5⟩ Event.AUTO_FLIP =
        ⟨⟨⟨"chat", "cat"⟩, true⟩, 2, 5⟩ ∧
      Controller.onEvent { interval_sec := 5, auto_flip := true }
          ⟨"chien", "dog"⟩ ⟨⟨"chat", "cat"⟩, true⟩ EventV3.FLIP =
        { current := ⟨"chat", "cat"⟩, showing_back := false } :=
  auto_flip_noop_variants (fun _ => ⟨"chien", "dog"⟩)
    ⟨⟨⟨"chat", "cat"⟩, true⟩, 2, 5⟩ { interval_sec := 5, auto_flip := true }
    ⟨"chien", "dog"⟩ ⟨⟨"chat", "cat"⟩, true⟩ rfl rfl rfl

theorem flip_current (m : Model) : (flip m).current = m.current := by
  unfold flip
  split <;> rfl

theorem randomChoice_mem (pairs : List WordPair) (d : Nat) (h : pairs ≠ []) :
    randomChoice pairs d ∈ pairs := by
  have hlen : 0 < pairs.length := List.length_pos.mpr h
  have hlt : d % pairs.length < pairs.length := Nat.mod_lt _ hlen
  unfold randomChoice
  rw [List.getD_eq_getElem pairs default hlt]
  exact List.getElem_mem hlt

theorem drain_current_mem (pairs : List WordPair) (choose : Nat → WordPair)
    (hchoose : ∀ k, choose k ∈ pairs) (s : ReducerState)
    (events : List Event) (hs : s.model.current ∈ pairs) :
    ∀ m ∈ drainEvents choose s events, m.current ∈ pairs := by
  induction events generalizing s with
  | nil => intro m hm; simp [drainEvents] at hm
  | cons ev rest ih =>
    intro m hm
    have hstep : (reduceStep choose s ev).model.current ∈ pairs := by
      cases ev with
      | NEXT => exact hchoose s.rng_calls
      | AUTO_FLIP =>
        show (flip s.model).current ∈ pairs
        rw [flip_current]
        exact hs
    simp only [drainEvents, List.mem_cons] at hm
    rcases hm with hm | hm
    · rw [hm]; exact hstep
    · exact ih (reduceStep choose s ev) hstep m hm

/-- C7: every model reachable by the reducer — the initial model built
from `random.choice(word_pairs)` and every snapshot produced by draining
any event sequence — has its current pair drawn from the loaded
word-pair store. -/
theorem reachable_current_mem (pairs : List WordPair) (draws : Nat → Nat)
    (seed : Nat) (events : List Event) (clock : ℚ) (h : pairs ≠ []) :
    (Model.mk (randomChoice pairs seed) false).current ∈ pairs ∧
      ∀ m ∈ drainEvents (fun k => randomChoice pairs (draws k))
          ⟨Model.mk (randomChoice pairs seed) false, clock, 0⟩ events,
        m.current ∈ pairs := by
  refine ⟨randomChoice_mem pairs seed h, ?_⟩
  exact drain_current_mem pairs (fun k => randomChoice pairs (draws k))
    (fun k => randomChoice_mem pairs (draws k) h)
    ⟨Model.mk (randomChoice pairs seed) false, clock, 0⟩ events
    (randomChoice_mem pairs seed h)

/-- Witness for C7 on a concrete two-pair store and event sequence. -/
theorem reachable_current_mem_witness :
    (Model.mk (randomChoice [⟨"chat", "cat"⟩, ⟨"chien", "dog"⟩] 0) false).current ∈
        [WordPair.mk "chat" "cat", WordPair.mk "chien" "dog"] ∧
      ∀ m ∈ drainEvents
          (fun k => randomChoice [⟨"chat", "cat"⟩, ⟨"chien", "dog"⟩] ((fun _ => 1) k))
          ⟨Model.mk (randomChoice [⟨"chat", "cat"⟩, ⟨"chien", "dog"⟩] 0) false, 0, 0⟩
          [Event.NEXT, Event.AUTO_FLIP],
        m.current ∈ [WordPair.mk "chat" "cat", WordPair.mk "chien" "dog"] :=
  reachable_current_mem [⟨"chat", "cat"⟩, ⟨"chien", "dog"⟩] (fun _ => 1) 0
    [Event.NEXT, Event.AUTO_FLIP] 0 (by decide)

theorem cancelLast_dead (l : List FlipTask)
    (h : ∀ t ∈ l.dropLast, t.cancelled = true ∨ t.done = true) :
    ∀ t ∈ cancelLast l, t.cancelled = true ∨ t.done = true := by
  induction l with
  | nil => intro t ht; simp [cancelLast] at ht
  | cons x rest ih =>
    intro t ht
    cases rest with
    | nil =>
      by_cases hd : x.done = true
      · simp [cancelLast, hd] at ht
        rw [ht]
        exact Or.inr hd
      · simp [cancelLast, hd] at ht
        rw [ht]
        exact Or.inl rfl
    | cons r rs =>
      have hx : x.cancelled = true ∨ x.done = true := by
        apply h
        simp [List.dropLast_cons_of_ne_nil]
      have hrest : ∀ u ∈ (r :: rs).dropLast, u.cancelled = true ∨ u.done = true := by
        intro u hu
        apply h
        simp [List.dropLast_cons_of_ne_nil, hu]
      have hunfold : cancelLast (x :: r :: rs) = x :: cancelLast (r :: rs) := rfl
      rw [hunfold, List.mem_cons] at ht
      rcases ht with heq | hmem
      · rw [heq]; exact hx
      · exact ih hrest t hmem

theorem cancelLast_append_singleton (xs : List FlipTask) (x : FlipTask) :
    cancelLast (xs ++ [x]) =
      xs ++ [if x.done then x else { x with cancelled := true }] := by
  induction xs with
  | nil =>
    show cancelLast [x] = [if x.done then x else { x with cancelled := true }]
    show (if x.done then [x] else [{ x with cancelled := true }]) = _
    split <;> rfl
  | cons y ys ih =>
    cases hys : ys ++ [x] with
    | nil => simp at hys
    | cons z zs =>
      have h1 : cancelLast ((y :: ys) ++ [x]) = y :: cancelLast (ys ++ [x]) := by
        rw [List.cons_append, hys]
        rfl
      rw [h1, ih, List.cons_append]

/-- C5: arming the auto-flip timer twice in succession from any state
whose earlier tasks are all cancelled or completed leaves exactly one
AUTO_FLIP to be enqueued, at the second delay's expiry: the first arm's
task is cancelled by the second arm and can never fire. -/
theorem scheduler_single_shot (s : TimerState) (d1 d2 : ℚ)
    (h : onlyLastLive s) :
    firedFlips (startFlipTimer (startFlipTimer s d1) d2) =
      [(Event.AUTO_FLIP, d2)] := by
  have hdead : ∀ t ∈ cancelLast s.tasks, t.cancelled = true ∨ t.done = true :=
    cancelLast_dead s.tasks h
  show firedFlips
      ⟨cancelLast (cancelLast s.tasks ++ [⟨d1, false, false⟩]) ++
        [⟨d2, false, false⟩]⟩ = _
  rw [cancelLast_append_singleton]
  unfold firedFlips
  simp only [List.filter_append]
  have h0 : (cancelLast s.tasks).filter (fun t => !t.cancelled && !t.done) = [] := by
    rw [List.filter_eq_nil_iff]
    intro t ht
    rcases hdead t ht with hc | hd
    · simp [hc]
    · simp [hd]
  rw [h0]
  simp

/-- Witness for C5 starting from the empty scheduler state. -/
theorem scheduler_single_shot_witness :
    firedFlips (startFlipTimer (startFlipTimer ⟨[]⟩ 3) 5) =
      [(Event.AUTO_FLIP, 5)] :=
  scheduler_single_shot ⟨[]⟩ 3 5 (by intro t ht; simp at ht)

theorem loadStep_pos (acc : List WordPair) (r : CsvRow)
    (h : trimmedFr r ≠ "" ∧ trimmedEn r ≠ "") :
    loadStep acc r = acc ++ [⟨trimmedFr r, trimmedEn r⟩] := by
  simp only [loadStep]
  rw [if_pos h]

theorem loadStep_neg (acc : List WordPair) (r : CsvRow)
    (h : ¬(trimmedFr r ≠ "" ∧ trimmedEn r ≠ "")) :
    loadStep acc r = acc := by
  simp only [loadStep]
  rw [if_neg h]

theorem load_word_pairs_foldl (rows : List CsvRow) (acc : List WordPair) :
    rows.foldl loadStep acc =
      acc ++
        (rows.filter (fun r => trimmedFr r ≠ "" ∧ trimmedEn r ≠ "")).map
          (fun r => ⟨trimmedFr r, trimmedEn r⟩) := by
  induction rows generalizing acc with
  | nil => simp
  | cons r rest ih =>
    by_cases h : trimmedFr r ≠ "" ∧ trimmedEn r ≠ ""
    · rw [List.foldl_cons, loadStep_pos acc r h, ih, List.filter_cons]
      simp [h]
    · rw [List.foldl_cons, loadStep_neg acc r h, ih, List.filter_cons]
      have hfalse : decide (trimmedFr r ≠ "" ∧ trimmedEn r ≠ "") = false := by
        simpa using h
      simp [hfalse]

/-- C6: the loader keeps exactly the rows whose trimmed French and
English cells are both non-empty, in file order, as the pairs of those
trimmed values; hence every loaded pair has a non-empty front and a
non-empty back. -/
theorem load_word_pairs_spec (rows : List CsvRow) :
    load_word_pairs rows =
      (rows.filter (fun r => trimmedFr r ≠ "" ∧ trimmedEn r ≠ "")).map
        (fun r => ⟨trimmedFr r, trimmedEn r⟩) ∧
    ∀ p ∈ load_word_pairs rows, p.fr ≠ "" ∧ p.en ≠ "" := by
  have heq := load_word_pairs_foldl rows []
  rw [List.nil_append] at heq
  refine ⟨heq, ?_⟩
  intro p hp
  rw [show load_word_pairs rows = _ from heq] at hp
  rcases List.mem_map.mp hp with ⟨r, hr, hpr⟩
  have hkeep := List.of_mem_filter hr
  simp only [decide_eq_true_eq] at hkeep
  rw [← hpr]
  exact hkeep

/-- Witness for C6 on concrete rows: a kept row with padded cells and
a dropped row with a blank cell. -/
theorem load_word_pairs_spec_witness :
    WordPair.mk "chat" "cat" ∈
        load_word_pairs
          [⟨some " chat ", some "cat"⟩, ⟨some "  ", some "dog"⟩] ∧
      (WordPair.mk "chat" "cat").fr ≠ "" ∧ (WordPair.mk "chat" "cat").en ≠ "" :=
  ⟨by decide,
   (load_word_pairs_spec
       [⟨some " chat ", some "cat"⟩, ⟨some "  ", some "dog"⟩]).2
     ⟨"chat", "cat"⟩ (by decide)⟩

/-- C10: RandomSelection is not a non-repeating policy: on a two-element
corpus of distinct pairs, when both draws land on the current pair the
single retry still returns the current pair; and on an empty corpus it
returns the current pair without raising. -/
theorem random_selection_can_repeat :
    ([WordPair.mk "chat" "cat", WordPair.mk "chien" "dog"].length > 1) ∧
    WordPair.mk "chat" "cat" ≠ WordPair.mk "chien" "dog" ∧
    RandomSelection.next ⟨"chat", "cat"⟩
        [⟨"chat", "cat"⟩, ⟨"chien", "dog"⟩] 0 0 = ⟨"chat", "cat"⟩ ∧
    ∀ (current : WordPair) (d1 d2 : Nat),
      RandomSelection.next current [] d1 d2 = current := by
  refine ⟨by decide, by decide, by decide, ?_⟩
  intro current d1 d2
  simp [RandomSelection.next]

/-- C8: rendering is deterministic and the cache is correctness-neutral:
with a well-formed cache, every render call returns exactly the uncached
computation for its pair (hit or miss alike), keeps the cache
well-formed, returns the same content when repeated, and afterwards the
key `(pair.fr, pair.en, theme key)` maps to that same content. -/
theorem render_cache_neutral (r : CardRenderer) (words : WordPair)
    (h : cacheWF r) :
    (r.render words).1 = renderUncached r.theme words ∧
    cacheWF (r.render words).2 ∧
    ((r.render words).2.render words).1 = (r.render words).1 ∧
    cacheLookup (r.render words).2.cache (words.fr, words.en, r.theme.key) =
      some (renderUncached r.theme words) := by
  cases hl : cacheLookup r.cache (words.fr, words.en, r.theme.key) with
  | some imgs =>
    have himgs : imgs = renderUncached r.theme words := h words.fr words.en imgs hl
    have hrender : r.render words = (imgs, r) := by
      simp only [CardRenderer.render]
      rw [hl]
    rw [hrender]
    exact ⟨himgs, h, by rw [hrender], by rw [hl, himgs]⟩
  | none =>
    have hrender : r.render words =
        (renderUncached r.theme words,
          { r with cache := ((words.fr, words.en, r.theme.key),
              renderUncached r.theme words) :: r.cache }) := by
      simp only [CardRenderer.render]
      rw [hl]
    rw [hrender]
    have hhit : cacheLookup
        (((words.fr, words.en, r.theme.key), renderUncached r.theme words) ::
          r.cache) (words.fr, words.en, r.theme.key) =
        some (renderUncached r.theme words) := by
      simp [cacheLookup]
    refine ⟨rfl, ?_, ?_, hhit⟩
    · intro fr en v hv
      replace hv :
          (if ((words.fr, words.en, r.theme.key) : CacheKey) =
              (fr, en, r.theme.key)
            then some (renderUncached r.theme words)
            else cacheLookup r.cache (fr, en, r.theme.key)) = some v := hv
      split at hv
      next hk =>
        injection hv with hv2
        have hfr : words.fr = fr := congrArg (fun p : CacheKey => p.1) hk
        have hen : words.en = en := congrArg (fun p : CacheKey => p.2.1) hk
        subst hfr
        subst hen
        exact hv2.symm
      next hk =>
        exact h fr en v hv
    · simp only [CardRenderer.render]
      rw [hhit]

/-- The theme bundle wired up in trash/main_v3.py Milo.startup. -/
def themeEx : Theme :=
  { spec :=
      { front_path := "resources/images/card_front.png"
        back_path := "resources/images/card_back.png"
        title_font_path := "resources/fonts/Roboto-Italic.ttf"
        word_font_path := "resources/fonts/Roboto-Bold.ttf" }
    base_front := ⟨0, []⟩
    base_back := ⟨1, []⟩
    title_font := 0
    word_font := 1 }

/-- Witness for C8: a renderer with the startup theme and an empty
(trivially well-formed) cache. -/
theorem render_cache_neutral_witness :
    (CardRenderer.render ⟨themeEx, []⟩ ⟨"chat", "cat"⟩).1 =
        renderUncached themeEx ⟨"chat", "cat"⟩ ∧
      cacheWF (CardRenderer.render ⟨themeEx, []⟩ ⟨"chat", "cat"⟩).2 ∧
      ((CardRenderer.render ⟨themeEx, []⟩ ⟨"chat", "cat"⟩).2.render
            ⟨"chat", "cat"⟩).1 =
        (CardRenderer.render ⟨themeEx, []⟩ ⟨"chat", "cat"⟩).1 ∧
      cacheLookup (CardRenderer.render ⟨themeEx, []⟩ ⟨"chat", "cat"⟩).2.cache
          ("chat", "cat", themeEx.key) =
        some (renderUncached themeEx ⟨"chat", "cat"⟩) :=
  render_cache_neutral ⟨themeEx, []⟩ ⟨"chat", "cat"⟩
    (fun _ _ _ hv => Option.noConfusion hv)

theorem readImg_alloc_old (h : ImgHeap) (img : GImage) (r : Nat)
    (hr : r < h.cells.length) :
    readImg (allocImg h img).1 r = readImg h r := by
  unfold readImg allocImg
  simp only [List.getD_eq_getElem?_getD]
  rw [List.getElem?_append_left hr]

theorem readImg_alloc_new (h : ImgHeap) (img : GImage) :
    readImg (allocImg h img).1 h.cells.length = img := by
  unfold readImg allocImg
  simp only [List.getD_eq_getElem?_getD]
  rw [List.getElem?_concat_length]
  rfl

theorem readImg_draw_ne (h : ImgHeap) (r2 : Nat) (op : GOp) (r : Nat)
    (hne : r2 ≠ r) :
    readImg (drawText h r2 op) r = readImg h r := by
  unfold readImg drawText
  simp only [List.getD_eq_getElem?_getD]
  rw [List.getElem?_set_ne hne]

theorem readImg_draw_self (h : ImgHeap) (r : Nat) (op : GOp)
    (hr : r < h.cells.length) :
    readImg (drawText h r op) r =
      { readImg h r with ops := (readImg h r).ops ++ [op] } := by
  unfold readImg drawText
  simp only [List.getD_eq_getElem?_getD]
  rw [List.getElem?_set_eq_of_lt _ hr]
  simp [readImg, List.getD_eq_getElem?_getD]

theorem drawText_length (h : ImgHeap) (r : Nat) (op : GOp) :
    (drawText h r op).cells.length = h.cells.length := by
  simp [drawText]

theorem readImg_copy_old (h : ImgHeap) (src r : Nat) (hr : r < h.cells.length) :
    readImg (copyImg h src).1 r = readImg h r :=
  readImg_alloc_old h (readImg h src) r hr

theorem readImg_copy_new (h : ImgHeap) (src : Nat) :
    readImg (copyImg h src).1 (copyImg h src).2 = readImg h src :=
  readImg_alloc_new h (readImg h src)

theorem copyImg_ref (h : ImgHeap) (src : Nat) :
    (copyImg h src).2 = h.cells.length := rfl

theorem copyImg_length (h : ImgHeap) (src : Nat) :
    (copyImg h src).1.cells.length = h.cells.length + 1 := by
  simp [copyImg, allocImg]

theorem readImg_draw_draw_self (h : ImgHeap) (r : Nat) (o1 o2 : GOp)
    (hr : r < h.cells.length) :
    readImg (drawText (drawText h r o1) r o2) r =
      { readImg h r with ops := (readImg h r).ops ++ [o1, o2] } := by
  rw [readImg_draw_self _ _ _ (by rw [drawText_length]; exact hr)]
  rw [readImg_draw_self _ _ _ hr]
  simp

theorem render_card_fst (h : ImgHeap) (theme : ThemeRefs) (words : WordPair) :
    (render_card h theme words).1 =
      drawText (drawText (drawText (drawText
          (copyImg (copyImg h theme.base_front).1 theme.base_back).1
          (copyImg h theme.base_front).2
          ⟨theme.title_pos, "French", "mm", theme.title_font,
            theme.title_color⟩)
          (copyImg h theme.base_front).2
          ⟨theme.word_pos, words.fr, "mm", theme.word_font,
            theme.word_color⟩)
          (copyImg (copyImg h theme.base_front).1 theme.base_back).2
          ⟨theme.title_pos, "English", "mm", theme.title_font,
            theme.title_color⟩)
          (copyImg (copyImg h theme.base_front).1 theme.base_back).2
          ⟨theme.word_pos, words.en, "mm", theme.word_font,
            theme.word_color⟩ := rfl

theorem render_card_front_ref (h : ImgHeap) (theme : ThemeRefs)
    (words : WordPair) :
    (render_card h theme words).2.1 = (copyImg h theme.base_front).2 := rfl

theorem render_card_back_ref (h : ImgHeap) (theme : ThemeRefs)
    (words : WordPair) :
    (render_card h theme words).2.2 =
      (copyImg (copyImg h theme.base_front).1 theme.base_back).2 := rfl

theorem create_card_fst (h : ImgHeap) (tf wf : Nat) (g : CardGraphic)
    (words : WordPair) :
    (create_card h tf wf g words).1 =
      drawText (drawText (drawText (drawText h g.front
          ⟨(400, (526 : ℚ) / 3), "French", "mm", tf, "red"⟩)
          g.front
          ⟨(400, (526 : ℚ) / 1.5), words.fr, "mm", wf, "green"⟩)
          g.back
          ⟨(400, (526 : ℚ) / 3), "English", "mm", tf, "red"⟩)
          g.back
          ⟨(400, (526 : ℚ) / 1.5), words.en, "mm", wf, "green"⟩ := rfl

theorem render_card_preserves (h : ImgHeap) (theme : ThemeRefs)
    (words : WordPair) (r : Nat) (hr : r < h.cells.length) :
    readImg (render_card h theme words).1 r = readImg h r := by
  have hA2 : (copyImg h theme.base_front).2 = h.cells.length := rfl
  have hB2 : (copyImg (copyImg h theme.base_front).1 theme.base_back).2 =
      h.cells.length + 1 := by rw [copyImg_ref, copyImg_length]
  have hne1 : (copyImg (copyImg h theme.base_front).1 theme.base_back).2 ≠ r := by
    rw [hB2]; omega
  have hne2 : (copyImg h theme.base_front).2 ≠ r := by rw [hA2]; omega
  have hlt1 : r < (copyImg h theme.base_front).1.cells.length := by
    rw [copyImg_length]; omega
  rw [render_card_fst]
  rw [readImg_draw_ne _ _ _ _ hne1]
  rw [readImg_draw_ne _ _ _ _ hne1]
  rw [readImg_draw_ne _ _ _ _ hne2]
  rw [readImg_draw_ne _ _ _ _ hne2]
  rw [readImg_copy_old _ _ _ hlt1]
  rw [readImg_copy_old _ _ _ hr]

theorem render_card_front_content (h : ImgHeap) (theme : ThemeRefs)
    (words : WordPair) :
    readImg (render_card h theme words).1 (render_card h theme words).2.1 =
      { readImg h theme.base_front with
        ops := (readImg h theme.base_front).ops ++
          renderCardFrontOps theme words } := by
  have hA2 : (copyImg h theme.base_front).2 = h.cells.length := rfl
  have hB2 : (copyImg (copyImg h theme.base_front).1 theme.base_back).2 =
      h.cells.length + 1 := by rw [copyImg_ref, copyImg_length]
  have hneBA : (copyImg (copyImg h theme.base_front).1 theme.base_back).2 ≠
      (copyImg h theme.base_front).2 := by rw [hA2, hB2]; omega
  have hself : (copyImg h theme.base_front).2 <
      (copyImg (copyImg h theme.base_front).1 theme.base_back).1.cells.length := by
    rw [copyImg_length, copyImg_length, hA2]; omega
  have hltA : (copyImg h theme.base_front).2 <
      (copyImg h theme.base_front).1.cells.length := by
    rw [copyImg_length, hA2]; omega
  rw [render_card_fst, render_card_front_ref]
  rw [readImg_draw_ne _ _ _ _ hneBA]
  rw [readImg_draw_ne _ _ _ _ hneBA]
  rw [readImg_draw_draw_self _ _ _ _ hself]
  rw [readImg_copy_old _ _ _ hltA]
  rw [readImg_copy_new]
  simp [renderCardFrontOps]

theorem render_card_back_content (h : ImgHeap) (theme : ThemeRefs)
    (words : WordPair) (hb : theme.base_back < h.cells.length) :
    readImg (render_card h theme words).1 (render_card h theme words).2.2 =
      { readImg h theme.base_back with
        ops := (readImg h theme.base_back).ops ++
          renderCardBackOps theme words } := by
  have hA2 : (copyImg h theme.base_front).2 = h.cells.length := rfl
  have hB2 : (copyImg (copyImg h theme.base_front).1 theme.base_back).2 =
      h.cells.length + 1 := by rw [copyImg_ref, copyImg_length]
  have hneAB : (copyImg h theme.base_front).2 ≠
      (copyImg (copyImg h theme.base_front).1 theme.base_back).2 := by
    rw [hA2, hB2]; omega
  have hself : (copyImg (copyImg h theme.base_front).1 theme.base_back).2 <
      (drawText (drawText
          (copyImg (copyImg h theme.base_front).1 theme.base_back).1
          (copyImg h theme.base_front).2
          ⟨theme.title_pos, "French", "mm", theme.title_font,
            theme.title_color⟩)
          (copyImg h theme.base_front).2
          ⟨theme.word_pos, words.fr, "mm", theme.word_font,
            theme.word_color⟩).cells.length := by
    rw [drawText_length, drawText_length, copyImg_length, copyImg_length, hB2]
    omega
  rw [render_card_fst, render_card_back_ref]
  rw [readImg_draw_draw_self _ _ _ _ hself]
  rw [readImg_draw_ne _ _ _ _ hneAB]
  rw [readImg_draw_ne _ _ _ _ hneAB]
  rw [readImg_copy_new]
  rw [readImg_copy_old _ _ _ hb]
  simp [renderCardBackOps]

theorem create_card_length (h : ImgHeap) (tf wf : Nat) (g : CardGraphic)
    (words : WordPair) :
    (create_card h tf wf g words).1.cells.length = h.cells.length := by
  rw [create_card_fst, drawText_length, drawText_length, drawText_length,
    drawText_length]

theorem create_card_preserves (h : ImgHeap) (tf wf : Nat) (g : CardGraphic)
    (words : WordPair) (r : Nat) (hrgf : r ≠ g.front) (hrgb : r ≠ g.back) :
    readImg (create_card h tf wf g words).1 r = readImg h r := by
  rw [create_card_fst]
  rw [readImg_draw_ne _ _ _ _ (Ne.symm hrgb)]
  rw [readImg_draw_ne _ _ _ _ (Ne.symm hrgb)]
  rw [readImg_draw_ne _ _ _ _ (Ne.symm hrgf)]
  rw [readImg_draw_ne _ _ _ _ (Ne.symm hrgf)]

theorem create_card_front_content (h : ImgHeap) (tf wf : Nat)
    (g : CardGraphic) (words : WordPair) (hgfb : g.front ≠ g.back)
    (hglt : g.front < h.cells.length) :
    readImg (create_card h tf wf g words).1 g.front =
      { readImg h g.front with
        ops := (readImg h g.front).ops ++ createCardFrontOps tf wf words } := by
  rw [create_card_fst]
  rw [readImg_draw_ne _ _ _ _ (Ne.symm hgfb)]
  rw [readImg_draw_ne _ _ _ _ (Ne.symm hgfb)]
  rw [readImg_draw_draw_self _ _ _ _ hglt]
  simp [createCardFrontOps]

/-- C9 (amended): `render_card` (trash.py) copies the shared base
imagery before drawing, so it leaves every pre-existing image object —
the shared templates included — unchanged and returns fresh objects
whose content is a function of the template content and the given pair
alone.  `create_card` (trash/org_main.py) does not copy: it draws in
place on the CardGraphic it is given (base imagery was copied only when
the CardGraphic was constructed), so objects other than the graphic's
own are untouched, but its drawing accumulates on the graphic's
objects across calls. -/
theorem render_isolation (h : ImgHeap) (theme : ThemeRefs) (words : WordPair)
    (g : CardGraphic) (tf wf : Nat) (r : Nat)
    (hb : theme.base_back < h.cells.length)
    (hr : r < h.cells.length)
    (hrgf : r ≠ g.front) (hrgb : r ≠ g.back)
    (hgfb : g.front ≠ g.back) (hglt : g.front < h.cells.length) :
    readImg (render_card h theme words).1 r = readImg h r ∧
    readImg (render_card h theme words).1 (render_card h theme words).2.1 =
      { readImg h theme.base_front with
        ops := (readImg h theme.base_front).ops ++
          renderCardFrontOps theme words } ∧
    readImg (render_card h theme words).1 (render_card h theme words).2.2 =
      { readImg h theme.base_back with
        ops := (readImg h theme.base_back).ops ++
          renderCardBackOps theme words } ∧
    readImg (create_card h tf wf g words).1 r = readImg h r ∧
    readImg (create_card h tf wf g words).1 g.front =
      { readImg h g.front with
        ops := (readImg h g.front).ops ++ createCardFrontOps tf wf words } :=
  ⟨render_card_preserves h theme words r hr,
   render_card_front_content h theme words,
   render_card_back_content h theme words hb,
   create_card_preserves h tf wf g words r hrgf hrgb,
   create_card_front_content h tf wf g words hgfb hglt⟩

/-- C9 counterexample: trash/org_main.py Milo.startup passes the same
CardGraphic to `create_card` twice; the front artifact the second call
returns differs from the one the first call returned for identical
arguments — the first call's drawing is still on it — so `create_card`
does not copy the base imagery per call and its artifacts are not
independent of previous calls. -/
theorem create_card_not_independent :
    readImg (create_card (create_card (mkCardGraphic ⟨[⟨0, []⟩, ⟨1, []⟩]⟩ 0 1).1
          10 11 (mkCardGraphic ⟨[⟨0, []⟩, ⟨1, []⟩]⟩ 0 1).2 ⟨"chat", "cat"⟩).1
          10 11 (mkCardGraphic ⟨[⟨0, []⟩, ⟨1, []⟩]⟩ 0 1).2 ⟨"chat", "cat"⟩).1
        (mkCardGraphic ⟨[⟨0, []⟩, ⟨1, []⟩]⟩ 0 1).2.front ≠
      readImg (create_card (mkCardGraphic ⟨[⟨0, []⟩, ⟨1, []⟩]⟩ 0 1).1
          10 11 (mkCardGraphic ⟨[⟨0, []⟩, ⟨1, []⟩]⟩ 0 1).2 ⟨"chat", "cat"⟩).1
        (mkCardGraphic ⟨[⟨0, []⟩, ⟨1, []⟩]⟩ 0 1).2.front := by
  intro heq
  have hfc := create_card_front_content
    (create_card (mkCardGraphic ⟨[⟨0, []⟩, ⟨1, []⟩]⟩ 0 1).1 10 11
      (mkCardGraphic ⟨[⟨0, []⟩, ⟨1, []⟩]⟩ 0 1).2 ⟨"chat", "cat"⟩).1 10 11
    (mkCardGraphic ⟨[⟨0, []⟩, ⟨1, []⟩]⟩ 0 1).2 ⟨"chat", "cat"⟩
    (by decide) (by rw [create_card_length]; decide)
  have hops := congrArg GImage.ops (hfc.symm.trans heq)
  have hlen := congrArg List.length hops
  simp [createCardFrontOps] at hlen

/-- The heap, theme and graphic of the witness below: templates in cells
0 and 1, the graphic's copies in cells 2 and 3. -/
def orgHeap : ImgHeap := ⟨[⟨0, []⟩, ⟨1, []⟩, ⟨0, []⟩, ⟨1, []⟩]⟩

def exTheme : ThemeRefs := ⟨0, 1, 20, 21, (400, 175), (400, 350), "red", "green"⟩

def exGraphic : CardGraphic := ⟨2, 3⟩

/-- Witness for the amended C9 at a concrete heap. -/
theorem render_isolation_witness :
    readImg (render_card orgHeap exTheme ⟨"chat", "cat"⟩).1 0 =
        readImg orgHeap 0 ∧
      readImg (render_card orgHeap exTheme ⟨"chat", "cat"⟩).1
          (render_card orgHeap exTheme ⟨"chat", "cat"⟩).2.1 =
        { readImg orgHeap exTheme.base_front with
          ops := (readImg orgHeap exTheme.base_front).ops ++
            renderCardFrontOps exTheme ⟨"chat", "cat"⟩ } ∧
      readImg (render_card orgHeap exTheme ⟨"chat", "cat"⟩).1
          (render_card orgHeap exTheme ⟨"chat", "cat"⟩).2.2 =
        { readImg orgHeap exTheme.base_back with
          ops := (readImg orgHeap exTheme.base_back).ops ++
            renderCardBackOps exTheme ⟨"chat", "cat"⟩ } ∧
      readImg (create_card orgHeap 10 11 exGraphic ⟨"chat", "cat"⟩).1 0 =
        readImg orgHeap 0 ∧
      readImg (create_card orgHeap 10 11 exGraphic ⟨"chat", "cat"⟩).1
          exGraphic.front =
        { readImg orgHeap exGraphic.front with
          ops := (readImg orgHeap exGraphic.front).ops ++
            createCardFrontOps 10 11 ⟨"chat", "cat"⟩ } :=
  render_isolation orgHeap exTheme ⟨"chat", "cat"⟩ exGraphic 10 11 0
    (by decide) (by decide) (by decide) (by decide) (by decide) (by decide)

/-- C2: flip is one-directional and idempotent. -/
theorem flip_oneway (m : Model) :
    flip (flip m) = flip m ∧ (flip m).showing_back = true ∧
      (m.showing_back = true → flip m = m) := by
  unfold flip
  cases m with
  | mk c b =>
    cases b <;> simp

/-- Witness for C2 at a concrete model already showing its back. -/
theorem flip_oneway_witness :
    flip (flip ⟨⟨"chat", "cat"⟩, true⟩) = flip ⟨⟨"chat", "cat"⟩, true⟩ ∧
      (flip ⟨⟨"chat", "cat"⟩, true⟩).showing_back = true ∧
      flip ⟨⟨"chat", "cat"⟩, true⟩ = ⟨⟨"chat", "cat"⟩, true⟩ :=
  ⟨(flip_oneway ⟨⟨"chat", "cat"⟩, true⟩).1,
   (flip_oneway ⟨⟨"chat", "cat"⟩, true⟩).2.1,
   (flip_oneway ⟨⟨"chat", "cat"⟩, true⟩).2.2 rfl⟩

/-- C3: next_card sets the chosen pair and resets to the front face, for
every model and every chosen pair (no branch on the pair, so also when
the chosen pair equals the current one). -/
theorem next_card_total (m : Model) (p : WordPair) :
    (next_card m p).current = p ∧ (next_card m p).showing_back = false :=
  ⟨rfl, rfl⟩

end Milo
